import Mathlib

/-!
A shallow embedding of `micropyGPS.py` (class `MicropyGPS`): the incremental
NMEA sentence framer (`update`), the checksum handling, and the six field
decoders (`gprmc`, `gpgll`, `gpvtg`, `gpgga`, `gpgsa`, `gpgsv`).

Modelling conventions:
* Python strings are `List Char`; Python slices `s[a:b]` become `take`/`drop`.
* Python `float` values are modelled by `PyFloat`: not-a-number, a signed
  infinity, or a finite value held exactly as a `Rat` (the IEEE rounding of a
  decimal literal to the nearest double is not modelled; no comparison the
  program performs distinguishes a decimal from its rounding).  `float(str)`
  accepts an optional sign, `inf`/`infinity`/`nan` in any letter case, and
  decimal literals with optional fractional part, decimal exponent and
  underscores between digits, as CPython's `float` does.
* Python `int(str)` / `float(str)` / `int(str, 16)` are modelled by
  `pyInt` / `pyFloat` / `pyHexInt`, returning `none` for `ValueError`.
* List indexing `xs[i]` that Python guards with `except IndexError`
  becomes `List.get?`; an *unguarded* index that can raise is modelled by
  returning `none` at the function's outer `Option` layer, meaning "an
  exception escapes".  Thus each decoder has type
  `GPSState → Option (Bool × GPSState)` where `none` is an escaped
  exception and `some (b, s)` is a normal return of `b` with new state `s`;
  likewise `update` returns `none` when an exception propagates out.
* `fix_time` (wall-clock ticks) and file logging are external effects with
  no influence on parsing and are omitted from the state.
-/

set_option synthInstance.maxHeartbeats 1000000
set_option synthInstance.maxSize 2048
set_option maxHeartbeats 4000000
set_option maxRecDepth 8000

/-- Numeric value of a list of decimal digit characters (most significant first). -/
def digitsVal (l : List Char) : Nat :=
  l.foldl (fun a c => 10 * a + (c.toNat - 48)) 0

/-- Strip surrounding whitespace (Python `int`/`float` tolerate it; of
Python's whitespace set only the space character can reach the parsers, since
`update`'s printable filter admits only codes 20..126). -/
def stripSpaces (l : List Char) : List Char :=
  ((l.dropWhile (· = ' ')).reverse.dropWhile (· = ' ')).reverse

/-- Continuation of a digit group after its first digit: digits with single
underscores allowed between digits (PEP 515) -- an underscore is never
leading, doubled or trailing. -/
def digitRun : List Char → Bool
  | [] => true
  | c :: r =>
    if c = '_' then
      match r with
      | c' :: r' => c'.isDigit && digitRun r'
      | [] => false
    else c.isDigit && digitRun r

/-- A full digit group: `digit ("_"? digit)*`. -/
def digitPart (l : List Char) : Bool :=
  match l with
  | [] => false
  | c :: r => c.isDigit && digitRun r

/-- Numeric value of a digit group, ignoring its underscores. -/
def digitsValU (l : List Char) : Nat :=
  digitsVal (l.filter (fun c => c != '_'))

/-- Nonempty digit group (underscores allowed between digits) to `Nat`. -/
def parseDigits (l : List Char) : Option Nat :=
  if digitPart l then some (digitsValU l) else none

/-- Python `int(s)`: optional sign then a decimal digit group. `none` =
`ValueError`. -/
def pyInt (s : List Char) : Option Int :=
  match stripSpaces s with
  | '-' :: r => (parseDigits r).map (fun n => -(n : Int))
  | '+' :: r => (parseDigits r).map (fun n => (n : Int))
  | r => (parseDigits r).map (fun n => (n : Int))

/-- A Python `float` value: not-a-number, a signed infinity (`inf true` is
negative infinity), or a finite value held exactly as a rational. -/
inductive PyFloat where
  | nan : PyFloat
  | inf : Bool → PyFloat
  | num : Rat → PyFloat
  deriving Repr, DecidableEq

/-- ASCII lowercasing, for the case-insensitive `inf`/`infinity`/`nan`. -/
def lowerChar (c : Char) : Char :=
  if 'A' ≤ c ∧ c ≤ 'Z' then Char.ofNat (c.toNat + 32) else c

/-- Split a string at the first character satisfying `p`, dropping that
character; `none` when no character satisfies `p`. -/
def splitFirst (p : Char → Bool) (l : List Char) : List Char × Option (List Char) :=
  match l.span (fun c => !(p c)) with
  | (a, []) => (a, none)
  | (a, _ :: b) => (a, some b)

/-- Optionally signed decimal digit group: the exponent of a float literal. -/
def expPart (l : List Char) : Option Int :=
  match l with
  | '-' :: d => if digitPart d then some (-(digitsValU d : Int)) else none
  | '+' :: d => if digitPart d then some ((digitsValU d : Int)) else none
  | d => if digitPart d then some ((digitsValU d : Int)) else none

/-- The exact value of a finite float literal, from its sign, mantissa
numerator/denominator and decimal exponent. -/
def pyFloatVal (neg : Bool) (num den : Nat) (e : Int) : Rat :=
  let sn : Int := if neg then -(num : Int) else (num : Int)
  if 0 ≤ e then mkRat (sn * 10 ^ e.toNat) den
  else mkRat sn (den * 10 ^ (-e).toNat)

/-- `float(s)` after the optional sign: `inf`/`infinity`/`nan` in any letter
case, or a decimal literal `digits [. digits] [(e|E) sign digits]` with at
least one mantissa digit and underscores allowed inside each digit group. -/
def pyFloatCore (neg : Bool) (r : List Char) : Option PyFloat :=
  let rl := r.map lowerChar
  if rl = ('i' :: ['n', 'f']) ∨ rl = ('i' :: ['n', 'f', 'i', 'n', 'i', 't', 'y']) then
    some (PyFloat.inf neg)
  else if rl = ('n' :: ['a', 'n']) then some PyFloat.nan
  else
    match splitFirst (fun c => c = 'e' || c = 'E') r with
    | (m, ex) =>
      match (match ex with | none => some (0 : Int) | some x => expPart x) with
      | none => none
      | some e =>
        match splitFirst (fun c => c = '.') m with
        | (ip, fpOpt) =>
          let fp := fpOpt.getD []
          let ok :=
            match fpOpt with
            | none => digitPart ip
            | some _ => (ip.isEmpty || digitPart ip) && (fp.isEmpty || digitPart fp)
                          && !(ip.isEmpty && fp.isEmpty)
          if ok then
            let fd := (fp.filter (fun c => c != '_')).length
            some (PyFloat.num (pyFloatVal neg
              (digitsValU ip * 10 ^ fd + digitsValU fp) (10 ^ fd) e))
          else none

/-- Python `float(s)`. `none` = `ValueError`. -/
def pyFloat (s : List Char) : Option PyFloat :=
  match stripSpaces s with
  | '-' :: r => pyFloatCore true r
  | '+' :: r => pyFloatCore false r
  | r => pyFloatCore false r

/-- The Python comparison `a >= r` of a float against a finite literal:
false for NaN (every comparison with NaN is false), decided by the sign for
an infinity. -/
def PyFloat.ge (a : PyFloat) (r : Rat) : Bool :=
  match a with
  | PyFloat.nan => false
  | PyFloat.inf neg => !neg
  | PyFloat.num x => decide (r ≤ x)

/-- Value of one hexadecimal digit character. -/
def hexDigitVal (c : Char) : Option Nat :=
  if '0' ≤ c ∧ c ≤ '9' then some (c.toNat - 48)
  else if 'a' ≤ c ∧ c ≤ 'f' then some (c.toNat - 87)
  else if 'A' ≤ c ∧ c ≤ 'F' then some (c.toNat - 55)
  else none

/-- Nonempty all-hex-digit string to `Nat`. -/
def parseHexDigits (l : List Char) : Option Nat :=
  l.foldl (fun a c => match a, hexDigitVal c with
                      | some v, some d => some (16 * v + d)
                      | _, _ => none)
    (if l = [] then none else some 0)

/-- Python `int(s, 16)`: optional sign then hex digits. `none` =
`ValueError`.  (The `0x`/`0X` prefix and underscore spellings that CPython
also accepts need at least three characters, while the framer only ever
applies this to the exactly-two-character checksum trailer, where the two
accept-sets coincide.) -/
def pyHexInt (s : List Char) : Option Int :=
  match stripSpaces s with
  | '-' :: r => (parseHexDigits r).map (fun n => -(n : Int))
  | '+' :: r => (parseHexDigits r).map (fun n => (n : Int))
  | r => (parseHexDigits r).map (fun n => (n : Int))

/-- One satellite's telemetry from GSV: (elevation, azimuth, SNR), each optional. -/
abbrev SatEntry := Option Int × Option Int × Option Int

/-- Python `dict` with `Int` keys, as an association list with unique keys. -/
abbrev SatDict := List (Int × SatEntry)

/-- Python `d[k] = v`: overwrite the entry for `k` in place, else append. -/
def dictInsert : SatDict → Int → SatEntry → SatDict
  | [], k, v => [(k, v)]
  | (k', v') :: t, k, v =>
    if k' = k then (k, v) :: t else (k', v') :: dictInsert t k v

/-- Python `old.update(new)`: fold the entries of `new` into `old`. -/
def dictUpdate (old new : SatDict) : SatDict :=
  new.foldl (fun d kv => dictInsert d kv.1 kv.2) old

/-- The mutable fields of a `MicropyGPS` object that take part in parsing
(`fix_time` and the logging handles are omitted: external effects only). -/
structure GPSState where
  sentence_active : Bool
  active_segment : Nat
  process_crc : Bool
  gps_segments : List (List Char)
  crc_xor : Nat
  char_count : Nat
  crc_fails : Nat
  clean_sentences : Nat
  parsed_sentences : Nat
  timestamp : Int × Int × PyFloat
  date : Int × Int × Int
  local_offset : Int
  latitude : Int × PyFloat × List Char
  longitude : Int × PyFloat × List Char
  speed : PyFloat
  course : PyFloat
  altitude : PyFloat
  geoid_height : PyFloat
  satellites_in_view : Int
  satellites_in_use : Int
  satellites_used : List Int
  last_sv_sentence : Int
  total_sv_sentences : Int
  satellite_data : SatDict
  hdop : PyFloat
  pdop : PyFloat
  vdop : PyFloat
  valid : Bool
  fix_stat : Int
  fix_type : Int
  buf : List Char
  deriving Repr, DecidableEq

/-- `MicropyGPS.SENTENCE_LIMIT`. -/
def SENTENCE_LIMIT : Nat := 90

/-- `MicropyGPS.__HEMISPHERES` (a single shared set for both axes). -/
def HEMISPHERES : List (List Char) := [['N'], ['S'], ['E'], ['W']]

/-- `MicropyGPS.CLEAR_TIME`. -/
def CLEAR_TIME : Int × Int × PyFloat := (0, 0, PyFloat.num 0)

/-- `MicropyGPS.CLEAR_DATE`. -/
def CLEAR_DATE : Int × Int × Int := (0, 0, 0)

/-- `MicropyGPS.CLEAR_LAT`. -/
def CLEAR_LAT : Int × PyFloat × List Char := (0, PyFloat.num 0, ['N'])

/-- `MicropyGPS.CLEAR_LON`. -/
def CLEAR_LON : Int × PyFloat × List Char := (0, PyFloat.num 0, ['W'])

/-- `MicropyGPS.__init__(local_offset, ...)`. -/
def initState (local_offset : Int) : GPSState where
  sentence_active := false
  active_segment := 0
  process_crc := false
  gps_segments := []
  crc_xor := 0
  char_count := 0
  crc_fails := 0
  clean_sentences := 0
  parsed_sentences := 0
  timestamp := CLEAR_TIME
  date := CLEAR_DATE
  local_offset := local_offset
  latitude := CLEAR_LAT
  longitude := CLEAR_LON
  speed := PyFloat.num 0
  course := PyFloat.num 0
  altitude := PyFloat.num 0
  geoid_height := PyFloat.num 0
  satellites_in_view := 0
  satellites_in_use := 0
  satellites_used := []
  last_sv_sentence := 0
  total_sv_sentences := 0
  satellite_data := []
  hdop := PyFloat.num 0
  pdop := PyFloat.num 0
  vdop := PyFloat.num 0
  valid := false
  fix_stat := 0
  fix_type := 1
  buf := []

/-- `MicropyGPS.__parse_time(utc_string)`, made pure: `none` means the source
returns `False` (leaving `timestamp` untouched); `some ts` means it returns
`True` after storing `ts` into `self.timestamp`. -/
def parse_time (local_offset : Int) (utc_string : List Char) : Option (Int × Int × PyFloat) :=
  if utc_string ≠ [] then
    match pyInt (utc_string.take 2), pyInt ((utc_string.drop 2).take 2),
          pyFloat (utc_string.drop 4) with
    | some h, some minutes, some seconds =>
      if PyFloat.ge seconds 60 = true ∨ minutes ≥ 60 then none
      else some ((h + local_offset) % 24, minutes, seconds)
    | _, _, _ => none
  else
    some CLEAR_TIME

/-- `MicropyGPS.__parse_lat_lon(lat, lon)`, made pure: `none` means the source
returns `False`; `some (la, lo)` means it returns `True` after storing `la`
into `self._latitude` and `lo` into `self._longitude`. -/
def parse_lat_lon (lat_str lat_hemi lon_str lon_hemi : List Char) :
    Option ((Int × PyFloat × List Char) × (Int × PyFloat × List Char)) :=
  if lat_hemi ∉ HEMISPHERES then none
  else match pyInt (lat_str.take 2), pyFloat (lat_str.drop 2) with
  | some lat_degs, some lat_mins =>
    if lon_hemi ∉ HEMISPHERES then none
    else match pyInt (lon_str.take 3), pyFloat (lon_str.drop 3) with
    | some lon_degs, some lon_mins =>
      some ((lat_degs, lat_mins, lat_hemi), (lon_degs, lon_mins, lon_hemi))
    | _, _ => none
  | _, _ => none

/-- `MicropyGPS.gprmc`.  `none` = an exception escapes; `some (b, s)` = the
method returns `b` with the object in state `s`. -/
def gprmc (s : GPSState) : Option (Bool × GPSState) :=
  match s.gps_segments.get? 1 with
  | none => some (false, s)
  | some utc_string =>
    match parse_time s.local_offset utc_string with
    | none => some (false, s)
    | some ts =>
      let s1 : GPSState := { s with timestamp := ts }
      match s1.gps_segments.get? 9 with
      | none => some (false, s1)
      | some date_string =>
        let d2 :=
          if date_string ≠ [] then
            match pyInt (date_string.take 2), pyInt ((date_string.drop 2).take 2),
                  pyInt ((date_string.drop 4).take 2) with
            | some day, some month, some year => some (day, month, year)
            | _, _, _ => none
          else some CLEAR_DATE
        match d2 with
        | none => some (false, s1)
        | some d =>
          let s2 : GPSState := { s1 with date := d }
          match s2.gps_segments.get? 2 with
          | none => none
          | some flag =>
            if flag = ['A'] then
              match s2.gps_segments.get? 4, s2.gps_segments.get? 3,
                    s2.gps_segments.get? 6, s2.gps_segments.get? 5 with
              | some lat_hemi, some lat_str, some lon_hemi, some lon_str =>
                match parse_lat_lon lat_str lat_hemi lon_str lon_hemi with
                | none => some (false, s2)
                | some (la, lo) =>
                  let s3 : GPSState := { s2 with latitude := la, longitude := lo }
                  match (s3.gps_segments.get? 7).bind pyFloat with
                  | none => some (false, s3)
                  | some spd_knt =>
                    match s3.gps_segments.get? 8 with
                    | none => some (false, s3)
                    | some course_str =>
                      let c2 :=
                        if course_str ≠ [] then pyFloat course_str
                        else some (PyFloat.num 0)
                      match c2 with
                      | none => some (false, s3)
                      | some course =>
                        some (true, { s3 with speed := spd_knt, course := course,
                                              valid := true })
              | _, _, _, _ => some (false, s2)
            else
              some (true, { s2 with latitude := CLEAR_LAT, longitude := CLEAR_LON,
                                    speed := PyFloat.num 0, course := PyFloat.num 0,
                                    valid := false })

/-- `MicropyGPS.gpgll`. -/
def gpgll (s : GPSState) : Option (Bool × GPSState) :=
  match s.gps_segments.get? 5 with
  | none => some (false, s)
  | some utc_string =>
    match parse_time s.local_offset utc_string with
    | none => some (false, s)
    | some ts =>
      let s1 : GPSState := { s with timestamp := ts }
      -- `self.gps_segments[6]` is not wrapped in a try: missing index raises.
      match s1.gps_segments.get? 6 with
      | none => none
      | some flag =>
        if flag = ['A'] then
          match s1.gps_segments.get? 2, s1.gps_segments.get? 1,
                s1.gps_segments.get? 4, s1.gps_segments.get? 3 with
          | some lat_hemi, some lat_str, some lon_hemi, some lon_str =>
            match parse_lat_lon lat_str lat_hemi lon_str lon_hemi with
            | none => some (false, s1)
            | some (la, lo) =>
              some (true, { s1 with latitude := la, longitude := lo, valid := true })
          | _, _, _, _ => some (false, s1)
        else
          some (true, { s1 with latitude := CLEAR_LAT, longitude := CLEAR_LON,
                                valid := false })

/-- `MicropyGPS.gpvtg`. -/
def gpvtg (s : GPSState) : Option (Bool × GPSState) :=
  match s.gps_segments.get? 1 with
  | none => some (false, s)
  | some course_str =>
    match (if course_str ≠ [] then pyFloat course_str else some (PyFloat.num 0)) with
    | none => some (false, s)
    | some course =>
      match s.gps_segments.get? 5 with
      | none => some (false, s)
      | some spd_str =>
        match (if spd_str ≠ [] then pyFloat spd_str else some (PyFloat.num 0)) with
        | none => some (false, s)
        | some spd_knt =>
          some (true, { s with speed := spd_knt, course := course })

/-- `MicropyGPS.gpgga`. -/
def gpgga (s : GPSState) : Option (Bool × GPSState) :=
  match s.gps_segments.get? 1 with
  | none => some (false, s)
  | some utc_string =>
    match parse_time s.local_offset utc_string with
    | none => some (false, s)
    | some ts =>
      let s1 : GPSState := { s with timestamp := ts }
      match (s1.gps_segments.get? 7).bind pyInt with
      | none => some (false, s1)
      | some satellites_in_use =>
        match (s1.gps_segments.get? 6).bind pyInt with
        | none => some (false, s1)
        | some fix_stat =>
          let hdop := (((s1.gps_segments.get? 8).bind pyFloat)).getD (PyFloat.num 0)
          if fix_stat ≠ 0 then
            match s1.gps_segments.get? 3, s1.gps_segments.get? 2,
                  s1.gps_segments.get? 5, s1.gps_segments.get? 4 with
            | some lat_hemi, some lat_str, some lon_hemi, some lon_str =>
              match parse_lat_lon lat_str lat_hemi lon_str lon_hemi with
              | none => some (false, s1)
              | some (la, lo) =>
                let s2 : GPSState := { s1 with latitude := la, longitude := lo }
                -- altitude/geoid: the try catches only ValueError, so a
                -- missing index 9 or 11 raises out of the method.
                match s2.gps_segments.get? 9 with
                | none => none
                | some alt_str =>
                  match pyFloat alt_str with
                  | none =>
                    some (true, { s2 with altitude := PyFloat.num 0,
                                          geoid_height := PyFloat.num 0,
                                          satellites_in_use := satellites_in_use,
                                          hdop := hdop, fix_stat := fix_stat })
                  | some altitude =>
                    match s2.gps_segments.get? 11 with
                    | none => none
                    | some gh_str =>
                      match pyFloat gh_str with
                      | none =>
                        some (true, { s2 with altitude := PyFloat.num 0,
                                              geoid_height := PyFloat.num 0,
                                              satellites_in_use := satellites_in_use,
                                              hdop := hdop, fix_stat := fix_stat })
                      | some geoid_height =>
                        some (true, { s2 with altitude := altitude,
                                              geoid_height := geoid_height,
                                              satellites_in_use := satellites_in_use,
                                              hdop := hdop, fix_stat := fix_stat })
            | _, _, _, _ => some (false, s1)
          else
            some (true, { s1 with satellites_in_use := satellites_in_use,
                                  hdop := hdop, fix_stat := fix_stat })

/-- The `for sats in range(12)` PRN loop of `MicropyGPS.gpgsa`.
`none` = IndexError escapes (`self.gps_segments[3 + sats]` is unguarded);
`some none` = the method returns `False`; `some (some l)` = loop done. -/
def gsaLoop (seg : List (List Char)) : Nat → Nat → List Int → Option (Option (List Int))
  | _, 0, acc => some (some acc)
  | sats, fuel + 1, acc =>
    match seg.get? (3 + sats) with
    | none => none
    | some sat_number_str =>
      if sat_number_str ≠ [] then
        match pyInt sat_number_str with
        | none => some none
        | some sat_number => gsaLoop seg (sats + 1) fuel (acc ++ [sat_number])
      else
        some (some acc)

/-- `MicropyGPS.gpgsa`. -/
def gpgsa (s : GPSState) : Option (Bool × GPSState) :=
  -- `int(self.gps_segments[2])`: only ValueError is caught, missing index raises.
  match s.gps_segments.get? 2 with
  | none => none
  | some ft_str =>
    match pyInt ft_str with
    | none => some (false, s)
    | some fix_type =>
      match gsaLoop s.gps_segments 0 12 [] with
      | none => none
      | some none => some (false, s)
      | some (some sats_used) =>
        -- PDOP/HDOP/VDOP: the try catches only ValueError, missing index raises.
        match s.gps_segments.get? 15 with
        | none => none
        | some p_str =>
          match pyFloat p_str with
          | none => some (false, s)
          | some pdop =>
            match s.gps_segments.get? 16 with
            | none => none
            | some h_str =>
              match pyFloat h_str with
              | none => some (false, s)
              | some hdop =>
                match s.gps_segments.get? 17 with
                | none => none
                | some v_str =>
                  match pyFloat v_str with
                  | none => some (false, s)
                  | some vdop =>
                    some (true, { s with fix_type := fix_type,
                                         satellites_used := sats_used,
                                         hdop := hdop, vdop := vdop, pdop := pdop })

/-- The `for sats in range(4, sat_segment_limit, 4)` loop of `MicropyGPS.gpgsv`.
All index errors inside it are caught, so there is no escape case:
`none` = the method returns `False`; `some d` = loop done with dict `d`.
The fuel argument only bounds the recursion: the loop is always entered with
fuel `seg.length + 1`, and every iteration requires `seg.get? sats` to hit
(i.e. `sats < seg.length`) while `sats` grows by 4, so the fuel can never run
out before the loop exits through one of its Python exits. -/
def gsvLoop (seg : List (List Char)) (limit : Int) : Nat → SatDict → Nat → Option SatDict
  | 0, dict, _ => some dict
  | fuel + 1, dict, sats =>
    if (sats : Int) ≥ limit then some dict
    else
      match seg.get? sats with
      | none => none
      | some prn_str =>
        if prn_str ≠ [] then
          match pyInt prn_str with
          | none => none
          | some sat_id =>
            let elevation := (seg.get? (sats + 1)).bind pyInt
            let azimuth := (seg.get? (sats + 2)).bind pyInt
            let snr := (seg.get? (sats + 3)).bind pyInt
            gsvLoop seg limit fuel
              (dictInsert dict sat_id (elevation, azimuth, snr)) (sats + 4)
        else some dict

/-- `MicropyGPS.gpgsv`. -/
def gpgsv (s : GPSState) : Option (Bool × GPSState) :=
  -- `int(self.gps_segments[1])` etc.: missing index raises (ValueError-only try).
  match s.gps_segments.get? 1 with
  | none => none
  | some s1 =>
    match pyInt s1 with
    | none => some (false, s)
    | some num_sv_sentences =>
      match s.gps_segments.get? 2 with
      | none => none
      | some s2 =>
        match pyInt s2 with
        | none => some (false, s)
        | some current_sv_sentence =>
          match s.gps_segments.get? 3 with
          | none => none
          | some s3 =>
            match pyInt s3 with
            | none => some (false, s)
            | some sats_in_view =>
              let sat_segment_limit : Int :=
                if num_sv_sentences = current_sv_sentence then
                  (sats_in_view - (num_sv_sentences - 1) * 4) * 5
                else 20
              match gsvLoop s.gps_segments sat_segment_limit
                      (s.gps_segments.length + 1) [] 4 with
              | none => some (false, s)
              | some satellite_dict =>
                some (true, { s with
                  total_sv_sentences := num_sv_sentences,
                  last_sv_sentence := current_sv_sentence,
                  satellites_in_view := sats_in_view,
                  satellite_data :=
                    if current_sv_sentence = 1 then satellite_dict
                    else dictUpdate s.satellite_data satellite_dict })

/-- `MicropyGPS.supported_sentences`: identifier string → decoder. -/
def supported_sentences (name : List Char) : Option (GPSState → Option (Bool × GPSState)) :=
  if name = ('G' :: 'P' :: ['R', 'M', 'C']) ∨ name = ('G' :: 'L' :: ['R', 'M', 'C']) ∨
     name = ('G' :: 'N' :: ['R', 'M', 'C']) then some gprmc
  else if name = ('G' :: 'P' :: ['G', 'G', 'A']) ∨ name = ('G' :: 'L' :: ['G', 'G', 'A']) ∨
     name = ('G' :: 'N' :: ['G', 'G', 'A']) then some gpgga
  else if name = ('G' :: 'P' :: ['V', 'T', 'G']) ∨ name = ('G' :: 'L' :: ['V', 'T', 'G']) ∨
     name = ('G' :: 'N' :: ['V', 'T', 'G']) then some gpvtg
  else if name = ('G' :: 'P' :: ['G', 'S', 'A']) ∨ name = ('G' :: 'L' :: ['G', 'S', 'A']) ∨
     name = ('G' :: 'N' :: ['G', 'S', 'A']) then some gpgsa
  else if name = ('G' :: 'P' :: ['G', 'S', 'V']) ∨ name = ('G' :: 'L' :: ['G', 'S', 'V']) then
    some gpgsv
  else if name = ('G' :: 'P' :: ['G', 'L', 'L']) ∨ name = ('G' :: 'L' :: ['G', 'L', 'L']) ∨
     name = ('G' :: 'N' :: ['G', 'L', 'L']) then some gpgll
  else none

/-- `MicropyGPS.new_sentence` (the `char_count = 0` reset happens after the
increment already performed by `update`). -/
def new_sentence (s : GPSState) : GPSState :=
  { s with gps_segments := [[]], active_segment := 0, crc_xor := 0,
           sentence_active := true, process_crc := true, char_count := 0, buf := [] }

/-- `MicropyGPS.__update_segment`: store the accumulated buffer as the active
segment.  (In reachable states `active_segment < gps_segments.length`, so the
out-of-range no-op of `List.set` is never exercised; Python would raise there.) -/
def update_segment (s : GPSState) : GPSState :=
  { s with gps_segments := s.gps_segments.set s.active_segment s.buf, buf := [] }

/-- Length-limit safeguard at the end of `update`: abandon the sentence when
`char_count` exceeds `SENTENCE_LIMIT`. -/
def checkLimit (s : GPSState) : GPSState :=
  if s.char_count > SENTENCE_LIMIT then { s with sentence_active := false } else s

/-- The `,` branch of `update`: close the current field and open a new one. -/
def commaStep (s : GPSState) : GPSState :=
  let s2 := update_segment s
  { s2 with active_segment := s2.active_segment + 1,
            gps_segments := s2.gps_segments ++ [[]] }

/-- The `*` branch of `update`: disable checksum accumulation, close the
current field and open the checksum field. -/
def starStep (s : GPSState) : GPSState :=
  let s2 := update_segment { s with process_crc := false }
  { s2 with active_segment := s2.active_segment + 1,
            gps_segments := s2.gps_segments ++ [[]] }

/-- The default branch of `update`: append the character to the buffer and,
when checksum accumulation is already off and two trailer characters have
been collected, compare the trailer with the running XOR.  Returns
`valid_sentence` and the new state. -/
def bufStep (c : Char) (s : GPSState) : Bool × GPSState :=
  let s2 : GPSState := { s with buf := s.buf ++ [c] }
  if s2.process_crc = false then
    if s2.buf.length = 2 then
      let s3 := update_segment s2
      match pyHexInt (s3.gps_segments.getD s3.active_segment []) with
      | some final_crc =>
        if (s3.crc_xor : Int) = final_crc then (true, s3)
        else (false, { s3 with crc_fails := s3.crc_fails + 1 })
      | none => (false, s3)
    else (false, s2)
  else (false, s2)

/-- The non-`$`/`*` in-sentence character handling of `update`: a comma closes
the field, any other character goes through `bufStep`. -/
def midStep (c : Char) (s : GPSState) : Bool × GPSState :=
  if c = ',' then (false, commaStep s) else bufStep c s

/-- The `if self.process_crc: self.crc_xor ^= ascii_char` step of `update`. -/
def crcAccum (c : Char) (s : GPSState) : GPSState :=
  if s.process_crc then { s with crc_xor := s.crc_xor ^^^ c.toNat } else s

/-- Increment the parsed-sentence statistic on a successful decode. -/
def countParsed (s : GPSState) : GPSState :=
  { s with parsed_sentences := s.parsed_sentences + 1 }

/-- The `if valid_sentence:` block of `update`: count the clean sentence,
deactivate framing and dispatch to the decoder looked up from the first
segment; a decoder returning `True` yields the identifier (skipping the
length check), otherwise fall through to the length check. -/
def dispatchStep (s : GPSState) : Option (Option (List Char) × GPSState) :=
  let s5 : GPSState := { s with clean_sentences := s.clean_sentences + 1,
                                sentence_active := false }
  match supported_sentences (s5.gps_segments.headD []) with
  | some decoder =>
    match decoder s5 with
    | none => none
    | some (true, s6) =>
      some (some (s6.gps_segments.headD []), countParsed s6)
    | some (false, s6) => some (none, checkLimit s6)
  | none => some (none, checkLimit s5)

/-- `MicropyGPS.update(new_char)`.  `none` = an exception escapes to the
caller; `some (r, s)` = the method returns `r` (`none` = Python `None`,
`some name` = the parsed sentence's identifier) with the object in state
`s`. -/
def update (s0 : GPSState) (new_char : Char) : Option (Option (List Char) × GPSState) :=
  let ascii_char := new_char.toNat
  if 20 ≤ ascii_char ∧ ascii_char ≤ 126 then
    let s1 : GPSState := { s0 with char_count := s0.char_count + 1 }
    if new_char = '$' then
      some (none, new_sentence s1)
    else if s1.sentence_active then
      if new_char = '*' then
        some (none, starStep s1)
      else
        match midStep new_char s1 with
        | (valid_sentence, s2) =>
          let s4 := crcAccum new_char s2
          if valid_sentence then dispatchStep s4
          else some (none, checkLimit s4)
    else
      some (none, checkLimit s1)
  else
    some (none, s0)

/-- Feed a list of characters, keeping only the final state
(`none` = some call raised). -/
def runChars (s : GPSState) : List Char → Option GPSState
  | [] => some s
  | c :: cs =>
    match update s c with
    | none => none
    | some (_, s') => runChars s' cs

/-- Feed a list of characters, returning the final call's return value
together with the final state (`none` = some call raised). -/
def feedAll (s : GPSState) : List Char → Option (Option (List Char) × GPSState)
  | [] => some (none, s)
  | [c] => update s c
  | c :: cs =>
    match update s c with
    | none => none
    | some (_, s') => feedAll s' cs

/-- Build a parser object whose `gps_segments` hold an already-tokenized
sentence (local offset 0), for exercising the field decoders directly. -/
def mkSegState (segs : List (List Char)) : GPSState :=
  { initState 0 with gps_segments := segs }

/-- C2: the claim says `update` never lets an exception escape.  The code
disagrees: on the checksum-clean sentence `$GPGSA*42` the dispatcher calls
`gpgsa`, whose `int(self.gps_segments[2])` (line 422) indexes past the end of
the two collected segments with no `IndexError` handler, so the exception
propagates out of `update` to the caller. -/
theorem c2_update_raises_on_short_gsa :
    feedAll (initState 0) (("$GPGSA*42").data) = none := by decide

/-- C3: feeding the canonical GGA example character by character (fresh
parser, local offset 0), the call that completes the checksum returns the
`GPGGA` identifier and commits timestamp (12, 35, 19), fix status 1,
8 satellites in use, altitude 545.4, geoid height 46.9, latitude
(48, 7.038, N) and longitude (11, 31.000, E); the trailing CR/LF are
ignored and change nothing. -/
theorem c3_gga_example :
    ((runChars (initState 0) (("$GPGGA,123519,4807.038,N,01131.000,E,1,08,0.9,545.4,M,46.9,M,,*4").data)).bind
        (fun s1 => update s1 '7')).map
      (fun p => p.1) = some (some (("GPGGA").data)) ∧
    ((runChars (initState 0) (("$GPGGA,123519,4807.038,N,01131.000,E,1,08,0.9,545.4,M,46.9,M,,*4").data)).bind
        (fun s1 => update s1 '7')).map
      (fun p => (p.2.timestamp, p.2.fix_stat, p.2.satellites_in_use,
                 p.2.altitude, p.2.geoid_height, p.2.latitude, p.2.longitude)) =
      some ((12, 35, PyFloat.num (mkRat 19 1)), 1, 8, PyFloat.num (mkRat 5454 10),
            PyFloat.num (mkRat 469 10), (48, PyFloat.num (mkRat 7038 1000), ['N']),
            (11, PyFloat.num (mkRat 31000 1000), ['E'])) ∧
    (runChars (initState 0) ((("$GPGGA,123519,4807.038,N,01131.000,E,1,08,0.9,545.4,M,46.9,M,,*47").data) ++ ['\r', '\n'])).map
      (fun s => (s.timestamp, s.fix_stat, s.satellites_in_use, s.altitude,
                 s.geoid_height, s.latitude, s.longitude)) =
      some ((12, 35, PyFloat.num (mkRat 19 1)), 1, 8, PyFloat.num (mkRat 5454 10),
            PyFloat.num (mkRat 469 10), (48, PyFloat.num (mkRat 7038 1000), ['N']),
            (11, PyFloat.num (mkRat 31000 1000), ['E'])) := by
  refine ⟨by decide, by decide, by decide⟩

/-- A float that fails the Python comparison `>= r` is NaN, negative
infinity, or a finite value below `r`. -/
lemma pyFloat_ge_false (a : PyFloat) (r : Rat) (h : PyFloat.ge a r = false) :
    a = PyFloat.nan ∨ a = PyFloat.inf true ∨
      ∃ q : Rat, a = PyFloat.num q ∧ q < r := by
  cases a with
  | nan => exact Or.inl rfl
  | inf neg =>
    cases neg with
    | true => exact Or.inr (Or.inl rfl)
    | false => exact Bool.noConfusion h
  | num q =>
    refine Or.inr (Or.inr ⟨q, rfl, ?_⟩)
    simp only [PyFloat.ge, decide_eq_false_iff_not] at h
    exact lt_of_not_le h

/-- C10 counterexample: the code checks only `seconds >= 60.0 or minutes >=
60`, so the time field `12-145` decodes successfully storing minute `-1`
(neither the sentinel nor inside 0..59), and the time field `1215nan` decodes
successfully storing a NaN second (`float('nan') >= 60.0` is false), which is
not inside 0..59.999 either. -/
theorem c10_counterexample :
    parse_time 0 (("12-145").data) = some (12, -1, PyFloat.num (mkRat 45 1)) ∧
    (12, -1, PyFloat.num (mkRat 45 1)) ≠ CLEAR_TIME ∧ ¬ (0 ≤ (-1 : Int)) ∧
    parse_time 0 (("1215nan").data) = some (12, 15, PyFloat.nan) := by
  refine ⟨by decide, by decide, by decide, by decide⟩

/-- C10 (amended): with local offset 0 a successfully decoded UTC time field
stores either the sentinel `(0, 0, 0.0)` or a timestamp whose hour lies in
0..23 and whose minute is less than 60, while the stored second is NaN,
negative infinity, or a finite value less than 60.  Only the upper-bound
comparisons are performed, and both are false for NaN: lower bounds are not
enforced (negative minutes and seconds get through) and a `nan` seconds field
is stored as NaN. -/
theorem c10_timestamp_ranges (u : List Char) (ts : Int × Int × PyFloat)
    (h : parse_time 0 u = some ts) :
    ts = CLEAR_TIME ∨
      (0 ≤ ts.1 ∧ ts.1 < 24 ∧ ts.2.1 < 60 ∧
       (ts.2.2 = PyFloat.nan ∨ ts.2.2 = PyFloat.inf true ∨
        ∃ q : Rat, ts.2.2 = PyFloat.num q ∧ q < 60)) := by
  unfold parse_time at h
  split at h
  · split at h
    next hh hm hs =>
      split at h
      · exact Option.noConfusion h
      next hrange =>
        obtain rfl := Option.some.inj h
        right
        push_neg at hrange
        obtain ⟨hsec, hmin⟩ := hrange
        exact ⟨Int.emod_nonneg _ (by decide), Int.emod_lt_of_pos _ (by decide),
               hmin, pyFloat_ge_false _ 60 (Bool.eq_false_iff.mpr hsec)⟩
    next => exact Option.noConfusion h
  · exact Or.inl (Option.some.inj h).symm

/-- C10 witness: instantiating the range theorem at the concrete time field
`123519`. -/
theorem c10_timestamp_ranges_witness :
    ((12 : Int), (35 : Int), PyFloat.num (mkRat 19 1)) = CLEAR_TIME ∨
      (0 ≤ ((12 : Int), (35 : Int), PyFloat.num (mkRat 19 1)).1 ∧
       ((12 : Int), (35 : Int), PyFloat.num (mkRat 19 1)).1 < 24 ∧
       ((12 : Int), (35 : Int), PyFloat.num (mkRat 19 1)).2.1 < 60 ∧
       (((12 : Int), (35 : Int), PyFloat.num (mkRat 19 1)).2.2 = PyFloat.nan ∨
        ((12 : Int), (35 : Int), PyFloat.num (mkRat 19 1)).2.2 = PyFloat.inf true ∨
        ∃ q : Rat, ((12 : Int), (35 : Int), PyFloat.num (mkRat 19 1)).2.2 =
          PyFloat.num q ∧ q < 60)) :=
  c10_timestamp_ranges (("123519").data) (12, 35, PyFloat.num (mkRat 19 1))
    (by decide)

/-- Equality of navigation state outside timestamp, date, latitude and
longitude (also covers the in-flight buffer and the statistics). -/
def UnchangedOutsideTimeDatePos (s s' : GPSState) : Prop :=
  s'.speed = s.speed ∧ s'.course = s.course ∧ s'.altitude = s.altitude ∧
  s'.geoid_height = s.geoid_height ∧ s'.valid = s.valid ∧
  s'.fix_stat = s.fix_stat ∧ s'.fix_type = s.fix_type ∧
  s'.satellites_in_use = s.satellites_in_use ∧
  s'.satellites_in_view = s.satellites_in_view ∧
  s'.satellites_used = s.satellites_used ∧
  s'.satellite_data = s.satellite_data ∧
  s'.hdop = s.hdop ∧ s'.pdop = s.pdop ∧ s'.vdop = s.vdop ∧
  s'.last_sv_sentence = s.last_sv_sentence ∧
  s'.total_sv_sentences = s.total_sv_sentences ∧
  s'.crc_fails = s.crc_fails ∧ s'.clean_sentences = s.clean_sentences ∧
  s'.parsed_sentences = s.parsed_sentences ∧
  s'.gps_segments = s.gps_segments ∧ s'.sentence_active = s.sentence_active

/-- On failure `gprmc` has not touched anything outside timestamp/date/position. -/
theorem gprmc_fail_frame (s s' : GPSState) (h : gprmc s = some (false, s')) :
    UnchangedOutsideTimeDatePos s s' := by
  unfold gprmc at h
  dsimp only at h
  repeat' split at h
  all_goals (try (exact Option.noConfusion h))
  all_goals (obtain ⟨hb, hs⟩ := Prod.mk.inj (Option.some.inj h))
  all_goals (first
    | exact Bool.noConfusion hb
    | (subst hs
       exact ⟨rfl, rfl, rfl, rfl, rfl, rfl, rfl, rfl, rfl, rfl, rfl, rfl, rfl, rfl,
              rfl, rfl, rfl, rfl, rfl, rfl, rfl⟩))

/-- On failure `gpgll` has not touched anything outside timestamp/date/position. -/
theorem gpgll_fail_frame (s s' : GPSState) (h : gpgll s = some (false, s')) :
    UnchangedOutsideTimeDatePos s s' := by
  unfold gpgll at h
  dsimp only at h
  repeat' split at h
  all_goals (try (exact Option.noConfusion h))
  all_goals (obtain ⟨hb, hs⟩ := Prod.mk.inj (Option.some.inj h))
  all_goals (first
    | exact Bool.noConfusion hb
    | (subst hs
       exact ⟨rfl, rfl, rfl, rfl, rfl, rfl, rfl, rfl, rfl, rfl, rfl, rfl, rfl, rfl,
              rfl, rfl, rfl, rfl, rfl, rfl, rfl⟩))

/-- On failure `gpvtg` leaves the whole state unchanged. -/
theorem gpvtg_fail_frame (s s' : GPSState) (h : gpvtg s = some (false, s')) :
    UnchangedOutsideTimeDatePos s s' := by
  unfold gpvtg at h
  repeat' split at h
  all_goals (try (exact Option.noConfusion h))
  all_goals (obtain ⟨hb, hs⟩ := Prod.mk.inj (Option.some.inj h))
  all_goals (first
    | exact Bool.noConfusion hb
    | (subst hs
       exact ⟨rfl, rfl, rfl, rfl, rfl, rfl, rfl, rfl, rfl, rfl, rfl, rfl, rfl, rfl,
              rfl, rfl, rfl, rfl, rfl, rfl, rfl⟩))

/-- On failure `gpgga` has not touched anything outside timestamp/date/position. -/
theorem gpgga_fail_frame (s s' : GPSState) (h : gpgga s = some (false, s')) :
    UnchangedOutsideTimeDatePos s s' := by
  unfold gpgga at h
  dsimp only at h
  repeat' split at h
  all_goals (try (exact Option.noConfusion h))
  all_goals (obtain ⟨hb, hs⟩ := Prod.mk.inj (Option.some.inj h))
  all_goals (first
    | exact Bool.noConfusion hb
    | (subst hs
       exact ⟨rfl, rfl, rfl, rfl, rfl, rfl, rfl, rfl, rfl, rfl, rfl, rfl, rfl, rfl,
              rfl, rfl, rfl, rfl, rfl, rfl, rfl⟩))

/-- On failure `gpgsa` leaves the whole state unchanged. -/
theorem gpgsa_fail_frame (s s' : GPSState) (h : gpgsa s = some (false, s')) :
    UnchangedOutsideTimeDatePos s s' := by
  unfold gpgsa at h
  repeat' split at h
  all_goals (try (exact Option.noConfusion h))
  all_goals (obtain ⟨hb, hs⟩ := Prod.mk.inj (Option.some.inj h))
  all_goals (first
    | exact Bool.noConfusion hb
    | (subst hs
       exact ⟨rfl, rfl, rfl, rfl, rfl, rfl, rfl, rfl, rfl, rfl, rfl, rfl, rfl, rfl,
              rfl, rfl, rfl, rfl, rfl, rfl, rfl⟩))

/-- On failure `gpgsv` leaves the whole state unchanged. -/
theorem gpgsv_fail_frame (s s' : GPSState) (h : gpgsv s = some (false, s')) :
    UnchangedOutsideTimeDatePos s s' := by
  unfold gpgsv at h
  dsimp only at h
  repeat' split at h
  all_goals (try (exact Option.noConfusion h))
  all_goals (obtain ⟨hb, hs⟩ := Prod.mk.inj (Option.some.inj h))
  all_goals (first
    | exact Bool.noConfusion hb
    | (subst hs
       exact ⟨rfl, rfl, rfl, rfl, rfl, rfl, rfl, rfl, rfl, rfl, rfl, rfl, rfl, rfl,
              rfl, rfl, rfl, rfl, rfl, rfl, rfl⟩))

/-- C1 counterexample: the RMC decoder commits the decoded timestamp before
validating the date field, so on the tokenized sentence
`GPRMC,123519,A,4807.038,N,01131.000,E,022.4,084.4,23x394` (malformed date)
it returns failure with `timestamp` already changed from the sentinel to
(12, 35, 19) -- the failing sentence was not discarded entirely. -/
theorem c1_counterexample :
    (gprmc (mkSegState [("GPRMC").data, ("123519").data, ("A").data,
        ("4807.038").data, ("N").data, ("01131.000").data, ("E").data,
        ("022.4").data, ("084.4").data, ("23x394").data])).map
      (fun p => (p.1, p.2.timestamp)) =
        some (false, (12, 35, PyFloat.num (mkRat 19 1))) ∧
    (mkSegState [("GPRMC").data, ("123519").data, ("A").data,
        ("4807.038").data, ("N").data, ("01131.000").data, ("E").data,
        ("022.4").data, ("084.4").data, ("23x394").data]).timestamp =
      (0, 0, PyFloat.num 0) := by
  refine ⟨by decide, by decide⟩

/-- C1 (amended): decoder failure is only partially atomic.  When a supported
sentence's decoder returns failure, every navigation-state field other than
`timestamp`, `date`, `latitude` and `longitude` is left unchanged (as are the
framing fields and statistics); the decoders may however have already
committed a timestamp (any sentence with a time field), a date (RMC) or a
position (RMC, after its speed/course fields fail) before failing. -/
theorem c1_failure_partial_frame (name : List Char)
    (dec : GPSState → Option (Bool × GPSState)) (s s' : GPSState)
    (hdec : supported_sentences name = some dec)
    (h : dec s = some (false, s')) : UnchangedOutsideTimeDatePos s s' := by
  unfold supported_sentences at hdec
  repeat' split at hdec
  all_goals (try (exact Option.noConfusion hdec))
  all_goals (obtain rfl := Option.some.inj hdec)
  · exact gprmc_fail_frame s s' h
  · exact gpgga_fail_frame s s' h
  · exact gpvtg_fail_frame s s' h
  · exact gpgsa_fail_frame s s' h
  · exact gpgsv_fail_frame s s' h
  · exact gpgll_fail_frame s s' h

/-- C1 witness: the partial-frame theorem applied to the concrete failing RMC
decode with a malformed date field. -/
theorem c1_failure_partial_frame_witness :
    UnchangedOutsideTimeDatePos
      (mkSegState [("GPRMC").data, ("123519").data, ("A").data,
        ("4807.038").data, ("N").data, ("01131.000").data, ("E").data,
        ("022.4").data, ("084.4").data, ("23x394").data])
      ({ mkSegState [("GPRMC").data, ("123519").data, ("A").data,
           ("4807.038").data, ("N").data, ("01131.000").data, ("E").data,
           ("022.4").data, ("084.4").data, ("23x394").data]
         with timestamp := (12, 35, PyFloat.num (mkRat 19 1)) }) :=
  c1_failure_partial_frame (("GPRMC").data) gprmc _ _ rfl (by decide)

/-- C4 counterexample: a GLL sentence with data-valid flag `V` decodes
successfully but does NOT set speed and course to 0.0 -- the GLL invalid
branch clears only position and `valid`, so a prior speed of 5 knots and
course of 7 degrees survive. -/
theorem c4_counterexample :
    (gpgll ({ mkSegState [("GPGLL").data, ("4807.038").data, ("N").data,
        ("01131.000").data, ("E").data, ("123519").data, ("V").data]
        with speed := PyFloat.num 5, course := PyFloat.num 7 })).map
      (fun p => (p.1, p.2.speed, p.2.course, p.2.valid)) =
      some (true, PyFloat.num 5, PyFloat.num 7, false) ∧
    PyFloat.num 5 ≠ PyFloat.num 0 := by
  refine ⟨by decide, by decide⟩

/-- C4 (amended): on a successfully decoded sentence whose data-valid flag
field is `V`, RMC clears latitude/longitude to their sentinels, zeroes speed
and course and clears `valid`; GLL clears latitude/longitude and `valid` but
leaves speed and course exactly as they were. -/
theorem c4_invalid_flag_clears (s s' t t' : GPSState) :
    (s.gps_segments.get? 2 = some ['V'] → gprmc s = some (true, s') →
      s'.latitude = CLEAR_LAT ∧ s'.longitude = CLEAR_LON ∧
      s'.speed = PyFloat.num 0 ∧ s'.course = PyFloat.num 0 ∧
      s'.valid = false) ∧
    (t.gps_segments.get? 6 = some ['V'] → gpgll t = some (true, t') →
      t'.latitude = CLEAR_LAT ∧ t'.longitude = CLEAR_LON ∧ t'.valid = false ∧
      t'.speed = t.speed ∧ t'.course = t.course) := by
  constructor
  · intro hflag h
    unfold gprmc at h
    dsimp only at h
    repeat' split at h
    all_goals (try (exact Option.noConfusion h))
    all_goals (obtain ⟨hb, hs⟩ := Prod.mk.inj (Option.some.inj h))
    all_goals (try (exact Bool.noConfusion hb))
    all_goals (try (subst hs; exact ⟨rfl, rfl, rfl, rfl, rfl⟩))
    all_goals simp_all
  · intro hflag h
    unfold gpgll at h
    dsimp only at h
    repeat' split at h
    all_goals (try (exact Option.noConfusion h))
    all_goals (obtain ⟨hb, hs⟩ := Prod.mk.inj (Option.some.inj h))
    all_goals (try (exact Bool.noConfusion hb))
    all_goals (try (subst hs; exact ⟨rfl, rfl, rfl, rfl, rfl⟩))
    all_goals simp_all

/-- A tokenized RMC sentence with data-valid flag `V`. -/
def c4RmcVState : GPSState :=
  mkSegState [("GPRMC").data, ("123519").data, ("V").data, ("4807.038").data,
    ("N").data, ("01131.000").data, ("E").data, ("022.4").data,
    ("084.4").data, ("230394").data, [], ("6A").data]

/-- The state after decoding `c4RmcVState`. -/
def c4RmcVResult : GPSState := ((gprmc c4RmcVState).getD (false, c4RmcVState)).2

/-- A tokenized GLL sentence with data-valid flag `V` and prior speed/course. -/
def c4GllVState : GPSState :=
  { mkSegState [("GPGLL").data, ("4807.038").data, ("N").data,
      ("01131.000").data, ("E").data, ("123519").data, ("V").data]
    with speed := PyFloat.num 5, course := PyFloat.num 7 }

/-- The state after decoding `c4GllVState`. -/
def c4GllVResult : GPSState := ((gpgll c4GllVState).getD (false, c4GllVState)).2

/-- C4 witness: the clear-on-invalid theorem applied at concrete RMC and GLL
sentences with flag `V`. -/
theorem c4_invalid_flag_clears_witness :
    (c4RmcVResult.latitude = CLEAR_LAT ∧ c4RmcVResult.longitude = CLEAR_LON ∧
     c4RmcVResult.speed = PyFloat.num 0 ∧ c4RmcVResult.course = PyFloat.num 0 ∧
     c4RmcVResult.valid = false) ∧
    (c4GllVResult.latitude = CLEAR_LAT ∧ c4GllVResult.longitude = CLEAR_LON ∧
     c4GllVResult.valid = false ∧ c4GllVResult.speed = c4GllVState.speed ∧
     c4GllVResult.course = c4GllVState.course) :=
  ⟨(c4_invalid_flag_clears c4RmcVState c4RmcVResult c4GllVState c4GllVResult).1
      (by decide) (by decide),
   (c4_invalid_flag_clears c4RmcVState c4RmcVResult c4GllVState c4GllVResult).2
      (by decide) (by decide)⟩

/-- Reading back the segment just written by `update_segment` at an in-range
index yields the stored buffer. -/
lemma getD_set_self (l : List (List Char)) (i : Nat) (x d : List Char)
    (h : i < l.length) : (l.set i x).getD i d = x := by
  simp [List.getD, List.getElem?_set_eq_of_lt _ h]

/-- C5 counterexample: feeding the GGA example sentence with the wrong
trailer `00` registers a checksum failure, but the sentence is NOT discarded:
it stays active, and continuing (with no new `$`) with the two characters
`47` -- which match the running XOR -- dispatches the sentence and returns
its identifier after all. -/
theorem c5_counterexample :
    ((runChars (initState 0) (("$GPGGA,123519,4807.038,N,01131.000,E,1,08,0.9,545.4,M,46.9,M,,*00").data)).map
      (fun m => (m.crc_fails, m.sentence_active, m.clean_sentences))) =
      some (1, true, 0) ∧
    ((runChars (initState 0) (("$GPGGA,123519,4807.038,N,01131.000,E,1,08,0.9,545.4,M,46.9,M,,*00").data)).bind
      (fun m => feedAll m (("47").data))).map
      (fun p => (p.1, p.2.crc_fails, p.2.parsed_sentences)) =
      some (some (("GPGGA").data), 1, 1) := by
  refine ⟨by decide, by decide⟩

/-- C5 (amended): when the character completing the two-character trailer
yields a hex value different from the running XOR, that call increments the
checksum-failure counter, dispatches nothing and returns no event -- but the
sentence is not discarded permanently: it remains active, and a later
character pair matching the running XOR can still dispatch it (see the
counterexample) until a new `$` arrives or the length limit is exceeded. -/
theorem c5_mismatch_not_permanent (s : GPSState) (b c : Char) (v : Int)
    (hact : s.sentence_active = true) (hpc : s.process_crc = false)
    (hbuf : s.buf = [b])
    (hp1 : 20 ≤ c.toNat) (hp2 : c.toNat ≤ 126)
    (hd : c ≠ '$') (hst : c ≠ '*') (hcm : c ≠ ',')
    (hseg : s.active_segment < s.gps_segments.length)
    (hparse : pyHexInt [b, c] = some v) (hne : ((s.crc_xor : Int)) ≠ v)
    (hcnt : s.char_count + 1 ≤ SENTENCE_LIMIT) :
    (update s c).map (fun p => (p.1, p.2.crc_fails, p.2.sentence_active,
      p.2.clean_sentences, p.2.parsed_sentences)) =
      some (none, s.crc_fails + 1, true, s.clean_sentences, s.parsed_sentences) := by
  unfold update midStep bufStep crcAccum checkLimit
  simp only [update_segment, hp1, hp2, and_self, if_true, hd, hst, hcm, hact, hpc, hbuf,
    if_false, ite_false, ite_true, List.length_cons, List.length_nil, List.singleton_append,
    getD_set_self _ _ _ _ hseg, hparse, hne, Nat.not_lt.mpr hcnt]
  simp [hne, Nat.not_lt.mpr hcnt]

/-- A framing state waiting for the second trailer character (`buf = ['0']`),
with running XOR 71 over the segment list of a GGA header. -/
def trailerWaitState : GPSState :=
  { initState 0 with
      sentence_active := true
      process_crc := false
      gps_segments := [("GPGGA").data, []]
      active_segment := 1
      crc_xor := 71
      buf := ['0']
      char_count := 8 }

/-- C5 witness: the mismatch theorem applied at the concrete state
`trailerWaitState` with second trailer character `0` (`0x00` against XOR 71). -/
theorem c5_mismatch_not_permanent_witness :
    (update trailerWaitState '0').map (fun p => (p.1, p.2.crc_fails,
      p.2.sentence_active, p.2.clean_sentences, p.2.parsed_sentences)) =
      some (none, trailerWaitState.crc_fails + 1, true,
            trailerWaitState.clean_sentences, trailerWaitState.parsed_sentences) :=
  c5_mismatch_not_permanent trailerWaitState '0' '0' 0 rfl rfl rfl (by decide)
    (by decide) (by decide) (by decide) (by decide) (by decide) (by decide)
    (by decide) (by decide)

/-- C6 counterexample: feeding the GGA example sentence with the non-hex
trailer `XZ` leaves the checksum-failure counter at 0 (the claim demands it
be incremented); nothing is dispatched and no exception escapes. -/
theorem c6_counterexample :
    ((feedAll (initState 0) (("$GPGGA,123519,4807.038,N,01131.000,E,1,08,0.9,545.4,M,46.9,M,,*XZ").data)).map
      (fun p => (p.1, p.2.crc_fails, p.2.clean_sentences, p.2.parsed_sentences))) =
      some (none, 0, 0, 0) := by decide

/-- C6 (amended): when the two characters collected after `*` do not form a
valid hexadecimal number, the sentence is not dispatched at that call and no
exception escapes, but -- unlike a failed checksum comparison -- the
checksum-failure counter is NOT incremented (`except ValueError: pass`), and
the sentence stays active. -/
theorem c6_nonhex_trailer_silent (s : GPSState) (b c : Char)
    (hact : s.sentence_active = true) (hpc : s.process_crc = false)
    (hbuf : s.buf = [b])
    (hp1 : 20 ≤ c.toNat) (hp2 : c.toNat ≤ 126)
    (hd : c ≠ '$') (hst : c ≠ '*') (hcm : c ≠ ',')
    (hseg : s.active_segment < s.gps_segments.length)
    (hparse : pyHexInt [b, c] = none)
    (hcnt : s.char_count + 1 ≤ SENTENCE_LIMIT) :
    (update s c).map (fun p => (p.1, p.2.crc_fails, p.2.sentence_active,
      p.2.clean_sentences, p.2.parsed_sentences)) =
      some (none, s.crc_fails, true, s.clean_sentences, s.parsed_sentences) := by
  unfold update midStep bufStep crcAccum checkLimit
  simp only [update_segment, hp1, hp2, and_self, if_true, hd, hst, hcm, hact, hpc, hbuf,
    if_false, ite_false, ite_true, List.length_cons, List.length_nil, List.singleton_append,
    getD_set_self _ _ _ _ hseg, hparse, Nat.not_lt.mpr hcnt]
  simp [Nat.not_lt.mpr hcnt]

/-- C6 witness: the non-hex-trailer theorem applied at `trailerWaitState`
with second trailer character `Z` (the pair `0Z` is not hex). -/
theorem c6_nonhex_trailer_silent_witness :
    (update trailerWaitState 'Z').map (fun p => (p.1, p.2.crc_fails,
      p.2.sentence_active, p.2.clean_sentences, p.2.parsed_sentences)) =
      some (none, trailerWaitState.crc_fails, true,
            trailerWaitState.clean_sentences, trailerWaitState.parsed_sentences) :=
  c6_nonhex_trailer_silent trailerWaitState '0' 'Z' rfl rfl rfl (by decide)
    (by decide) (by decide) (by decide) (by decide) (by decide) (by decide)
    (by decide)

/-- Both stored hemisphere letters lie in the shared `__HEMISPHERES` set. -/
def HemiOK (s : GPSState) : Prop :=
  s.latitude.2.2 ∈ HEMISPHERES ∧ s.longitude.2.2 ∈ HEMISPHERES

/-- A successful `__parse_lat_lon` only ever returns hemisphere letters drawn
from `__HEMISPHERES` (either axis's letters, for either slot). -/
lemma parse_lat_lon_hemi (lat_str lat_hemi lon_str lon_hemi : List Char)
    (la lo : Int × PyFloat × List Char)
    (h : parse_lat_lon lat_str lat_hemi lon_str lon_hemi = some (la, lo)) :
    la.2.2 ∈ HEMISPHERES ∧ lo.2.2 ∈ HEMISPHERES := by
  unfold parse_lat_lon at h
  repeat' split at h
  all_goals (try (exact Option.noConfusion h))
  obtain ⟨h1, h2⟩ := Prod.mk.inj (Option.some.inj h)
  subst h1; subst h2
  constructor
  · exact not_not.mp (by assumption)
  · exact not_not.mp (by assumption)

/-- `gprmc` preserves `HemiOK` on every normal return. -/
lemma gprmc_hemi (s : GPSState) (b : Bool) (s' : GPSState)
    (h : gprmc s = some (b, s')) (hok : HemiOK s) : HemiOK s' := by
  unfold gprmc at h
  dsimp only at h
  repeat' split at h
  all_goals (try (exact Option.noConfusion h))
  all_goals (obtain ⟨hb, hs⟩ := Prod.mk.inj (Option.some.inj h))
  all_goals (subst hs)
  all_goals (simp only [HemiOK] at hok ⊢)
  all_goals (first
    | exact hok
    | exact ⟨by decide, by decide⟩
    | exact parse_lat_lon_hemi _ _ _ _ _ _ (by assumption))

/-- `gpgll` preserves `HemiOK` on every normal return. -/
lemma gpgll_hemi (s : GPSState) (b : Bool) (s' : GPSState)
    (h : gpgll s = some (b, s')) (hok : HemiOK s) : HemiOK s' := by
  unfold gpgll at h
  dsimp only at h
  repeat' split at h
  all_goals (try (exact Option.noConfusion h))
  all_goals (obtain ⟨hb, hs⟩ := Prod.mk.inj (Option.some.inj h))
  all_goals (subst hs)
  all_goals (simp only [HemiOK] at hok ⊢)
  all_goals (first
    | exact hok
    | exact ⟨by decide, by decide⟩
    | exact parse_lat_lon_hemi _ _ _ _ _ _ (by assumption))

/-- `gpgga` preserves `HemiOK` on every normal return. -/
lemma gpgga_hemi (s : GPSState) (b : Bool) (s' : GPSState)
    (h : gpgga s = some (b, s')) (hok : HemiOK s) : HemiOK s' := by
  unfold gpgga at h
  dsimp only at h
  repeat' split at h
  all_goals (try (exact Option.noConfusion h))
  all_goals (obtain ⟨hb, hs⟩ := Prod.mk.inj (Option.some.inj h))
  all_goals (subst hs)
  all_goals (simp only [HemiOK] at hok ⊢)
  all_goals (first
    | exact hok
    | exact ⟨by decide, by decide⟩
    | exact parse_lat_lon_hemi _ _ _ _ _ _ (by assumption))

/-- `gpvtg` preserves `HemiOK` on every normal return. -/
lemma gpvtg_hemi (s : GPSState) (b : Bool) (s' : GPSState)
    (h : gpvtg s = some (b, s')) (hok : HemiOK s) : HemiOK s' := by
  unfold gpvtg at h
  repeat' split at h
  all_goals (try (exact Option.noConfusion h))
  all_goals (obtain ⟨hb, hs⟩ := Prod.mk.inj (Option.some.inj h))
  all_goals (subst hs)
  all_goals exact hok

/-- `gpgsa` preserves `HemiOK` on every normal return. -/
lemma gpgsa_hemi (s : GPSState) (b : Bool) (s' : GPSState)
    (h : gpgsa s = some (b, s')) (hok : HemiOK s) : HemiOK s' := by
  unfold gpgsa at h
  repeat' split at h
  all_goals (try (exact Option.noConfusion h))
  all_goals (obtain ⟨hb, hs⟩ := Prod.mk.inj (Option.some.inj h))
  all_goals (subst hs)
  all_goals exact hok

/-- `gpgsv` preserves `HemiOK` on every normal return. -/
lemma gpgsv_hemi (s : GPSState) (b : Bool) (s' : GPSState)
    (h : gpgsv s = some (b, s')) (hok : HemiOK s) : HemiOK s' := by
  unfold gpgsv at h
  dsimp only at h
  repeat' split at h
  all_goals (try (exact Option.noConfusion h))
  all_goals (obtain ⟨hb, hs⟩ := Prod.mk.inj (Option.some.inj h))
  all_goals (subst hs)
  all_goals exact hok

/-- Every decoder reachable through the dispatch table preserves `HemiOK`. -/
lemma supported_hemi (name : List Char) (dec : GPSState → Option (Bool × GPSState))
    (hdec : supported_sentences name = some dec) :
    ∀ t b t', dec t = some (b, t') → HemiOK t → HemiOK t' := by
  unfold supported_sentences at hdec
  repeat' split at hdec
  all_goals (try (exact Option.noConfusion hdec))
  all_goals (obtain rfl := Option.some.inj hdec)
  · exact fun t b t' h hok => gprmc_hemi t b t' h hok
  · exact fun t b t' h hok => gpgga_hemi t b t' h hok
  · exact fun t b t' h hok => gpvtg_hemi t b t' h hok
  · exact fun t b t' h hok => gpgsa_hemi t b t' h hok
  · exact fun t b t' h hok => gpgsv_hemi t b t' h hok
  · exact fun t b t' h hok => gpgll_hemi t b t' h hok

/-- `checkLimit` does not touch the stored position. -/
lemma hemiOK_checkLimit (s : GPSState) (hok : HemiOK s) : HemiOK (checkLimit s) := by
  unfold checkLimit
  split
  · exact hok
  · exact hok

/-- `crcAccum` does not touch the stored position. -/
lemma hemiOK_crcAccum (c : Char) (s : GPSState) (hok : HemiOK s) :
    HemiOK (crcAccum c s) := by
  unfold crcAccum
  split
  · exact hok
  · exact hok

/-- `midStep` (comma handling / buffer and trailer handling) does not touch
the stored position. -/
lemma hemiOK_midStep (c : Char) (s1 : GPSState) (vb : Bool) (s2 : GPSState)
    (h : midStep c s1 = (vb, s2)) (hok : HemiOK s1) : HemiOK s2 := by
  unfold midStep at h
  split at h
  · obtain ⟨hv, hs⟩ := Prod.mk.inj h
    subst hs
    exact hok
  · unfold bufStep at h
    dsimp only at h
    repeat' split at h
    all_goals (obtain ⟨hv, hs⟩ := Prod.mk.inj h; subst hs; exact hok)

/-- `countParsed` does not touch the stored position. -/
lemma hemiOK_countParsed (s : GPSState) (hok : HemiOK s) : HemiOK (countParsed s) :=
  hok

/-- Corollary of `hemiOK_midStep` in projection form. -/
lemma hemiOK_midStep_snd (c : Char) (s1 : GPSState) (hok : HemiOK s1) :
    HemiOK (midStep c s1).2 :=
  hemiOK_midStep c s1 (midStep c s1).1 (midStep c s1).2 rfl hok

/-- `dispatchStep` preserves the hemisphere invariant on every normal return. -/
lemma hemiOK_dispatchStep (t : GPSState) (r : Option (List Char)) (s' : GPSState)
    (h : dispatchStep t = some (r, s')) (hok : HemiOK t) : HemiOK s' := by
  unfold dispatchStep at h
  dsimp only at h
  repeat' split at h
  all_goals (try (exact Option.noConfusion h))
  all_goals (obtain ⟨hr, hs⟩ := Prod.mk.inj (Option.some.inj h))
  all_goals (subst hs)
  all_goals (first
    | exact hemiOK_checkLimit _ hok
    | exact hemiOK_countParsed _ (supported_hemi _ _ (by assumption) _ _ _ (by assumption) (by exact hok))
    | exact hemiOK_checkLimit _ (supported_hemi _ _ (by assumption) _ _ _ (by assumption) (by exact hok)))

/-- C7 counterexample: the full RMC sentence
`$GPRMC,123519,A,4807.038,E,01131.000,N,022.4,084.4,230394,,*11` (hemisphere
letters swapped) passes the checksum, dispatches, decodes successfully and
stores the east/west letter `E` into latitude (and `N` into longitude) --
`__parse_lat_lon` checks both letters against the one shared set. -/
theorem c7_counterexample :
    ((feedAll (initState 0) (("$GPRMC,123519,A,4807.038,E,01131.000,N,022.4,084.4,230394,,*11").data)).map
      (fun p => (p.1, p.2.latitude, p.2.longitude))) =
      some (some (("GPRMC").data), (48, PyFloat.num (mkRat 7038 1000), ['E']),
            (11, PyFloat.num (mkRat 31000 1000), ['N'])) ∧
    (['E'] ≠ (['N'] : List Char) ∧ ['E'] ≠ (['S'] : List Char)) := by
  refine ⟨by decide, by decide⟩

/-- C7 (amended): an invariant preserved by every `update` call that returns
normally: the hemisphere letter stored in latitude and the one stored in
longitude always lie in the four-letter set {N, S, E, W}.  The axis-specific
version is false: an east/west letter can be stored into latitude (and
vice versa), because both axes are validated against the same set. -/
theorem c7_hemisphere_invariant (s : GPSState) (c : Char)
    (r : Option (List Char)) (s' : GPSState)
    (hok : HemiOK s) (h : update s c = some (r, s')) : HemiOK s' := by
  unfold update at h
  dsimp only at h
  repeat' split at h
  all_goals (try (exact Option.noConfusion h))
  all_goals (try (exact hemiOK_dispatchStep _ _ _ h (hemiOK_crcAccum _ _ (hemiOK_midStep_snd _ _ (by exact hok)))))
  all_goals (obtain ⟨hr, hs⟩ := Prod.mk.inj (Option.some.inj h))
  all_goals (subst hs)
  all_goals (try (exact hok))
  all_goals (try (exact hemiOK_checkLimit _ hok))
  all_goals (exact hemiOK_checkLimit _ (hemiOK_crcAccum _ _ (hemiOK_midStep_snd _ _ (by exact hok))))

/-- The state produced by one harmless character fed to a fresh parser. -/
def c7WitState : GPSState := ((update (initState 0) 'x').getD (none, initState 0)).2

/-- C7 witness: the hemisphere invariant applied to a concrete `update` call
on the freshly constructed parser. -/
theorem c7_hemisphere_invariant_witness : HemiOK c7WitState :=
  c7_hemisphere_invariant (initState 0) 'x' none c7WitState
    (by constructor <;> decide) (by decide)

/-- Lookup in the association-list model of a Python `dict`. -/
def dictLookup (d : SatDict) (k : Int) : Option SatEntry :=
  match d with
  | [] => none
  | (k', v) :: t => if k = k' then some v else dictLookup t k

/-- Lookup after `dictInsert`: the inserted key wins, others are untouched. -/
lemma dictLookup_dictInsert (d : SatDict) (k : Int) (v : SatEntry) (k' : Int) :
    dictLookup (dictInsert d k v) k' = if k' = k then some v else dictLookup d k' := by
  induction d with
  | nil => simp [dictInsert, dictLookup]
  | cons hd t ih =>
    obtain ⟨k0, v0⟩ := hd
    by_cases hk : k0 = k
    · subst hk
      by_cases h1 : k' = k0 <;> simp [dictInsert, dictLookup, h1]
    · by_cases h1 : k' = k0
      · subst h1
        simp [dictInsert, hk, dictLookup]
      · simp [dictInsert, hk, dictLookup, h1, ih]

/-- Distinct keys, as pairwise disequality of the first components. -/
def KeysNodup (d : SatDict) : Prop :=
  d.Pairwise (fun a b => a.1 ≠ b.1)

/-- Entries of `dictInsert` are old entries or carry the inserted key. -/
lemma dictInsert_mem (d : SatDict) (k : Int) (v : SatEntry) :
    ∀ p ∈ dictInsert d k v, p ∈ d ∨ p.1 = k := by
  induction d with
  | nil =>
    intro p hp
    simp only [dictInsert, List.mem_singleton] at hp
    subst hp
    exact Or.inr rfl
  | cons hd t ih =>
    obtain ⟨k0, v0⟩ := hd
    intro p hp
    by_cases hk : k0 = k
    · subst hk
      simp only [dictInsert, eq_self_iff_true, ite_true, List.mem_cons] at hp
      rcases hp with hp | hp
      · subst hp; exact Or.inr rfl
      · exact Or.inl (List.mem_cons_of_mem _ hp)
    · simp only [dictInsert, hk, ite_false, List.mem_cons] at hp
      rcases hp with hp | hp
      · subst hp; exact Or.inl (List.mem_cons_self _ _)
      · rcases ih p hp with h2 | h2
        · exact Or.inl (List.mem_cons_of_mem _ h2)
        · exact Or.inr h2

/-- `dictInsert` preserves distinctness of keys. -/
lemma keysNodup_dictInsert (d : SatDict) (k : Int) (v : SatEntry)
    (h : KeysNodup d) : KeysNodup (dictInsert d k v) := by
  induction d with
  | nil => simp [dictInsert, KeysNodup]
  | cons hd t ih =>
    obtain ⟨k0, v0⟩ := hd
    rw [KeysNodup, List.pairwise_cons] at h
    by_cases hk : k0 = k
    · subst hk
      rw [KeysNodup, dictInsert, if_pos rfl, List.pairwise_cons]
      exact ⟨h.1, h.2⟩
    · rw [KeysNodup, dictInsert, if_neg hk, List.pairwise_cons]
      refine ⟨fun p hp => ?_, ih h.2⟩
      rcases dictInsert_mem t k v p hp with h2 | h2
      · exact h.1 p h2
      · rw [h2]; exact hk

/-- A key different from every stored key is not found. -/
lemma dictLookup_eq_none (d : SatDict) (k : Int) (h : ∀ p ∈ d, k ≠ p.1) :
    dictLookup d k = none := by
  induction d with
  | nil => rfl
  | cons hd t ih =>
    obtain ⟨k0, v0⟩ := hd
    simp only [dictLookup]
    rw [if_neg (h (k0, v0) (List.mem_cons_self _ _))]
    exact ih (fun p hp => h p (List.mem_cons_of_mem _ hp))

/-- Keys absent from `new` keep their `old` binding through `dictUpdate`. -/
lemma dictLookup_dictUpdate_none (new : SatDict) :
    ∀ old k, dictLookup new k = none →
      dictLookup (dictUpdate old new) k = dictLookup old k := by
  induction new with
  | nil => intro old k _; rfl
  | cons hd t ih =>
    obtain ⟨k0, v0⟩ := hd
    intro old k h
    simp only [dictLookup] at h
    have step : dictUpdate old ((k0, v0) :: t) = dictUpdate (dictInsert old k0 v0) t := by
      simp [dictUpdate]
    split at h
    · exact Option.noConfusion h
    · rw [step, ih _ _ h, dictLookup_dictInsert]
      rw [if_neg (by assumption)]

/-- Keys present in `new` (with distinct keys) take their `new` binding
through `dictUpdate`. -/
lemma dictLookup_dictUpdate_some (new : SatDict) :
    ∀ old k v, KeysNodup new → dictLookup new k = some v →
      dictLookup (dictUpdate old new) k = some v := by
  induction new with
  | nil => intro old k v _ h; exact Option.noConfusion h
  | cons hd t ih =>
    obtain ⟨k0, v0⟩ := hd
    intro old k v hnd h
    rw [KeysNodup, List.pairwise_cons] at hnd
    simp only [dictLookup] at h
    have step : dictUpdate old ((k0, v0) :: t) = dictUpdate (dictInsert old k0 v0) t := by
      simp [dictUpdate]
    rw [step]
    split at h
    · rename_i hk
      obtain rfl := Option.some.inj h
      have ht : dictLookup t k = none := by
        apply dictLookup_eq_none
        intro p hp
        rw [hk]
        exact hnd.1 p hp
      rw [dictLookup_dictUpdate_none t _ k ht, dictLookup_dictInsert, if_pos hk]
    · exact ih _ _ _ hnd.2 h

/-- The satellite dict accumulated by the GSV block loop has distinct keys
when the initial dict does. -/
lemma gsvLoop_keysNodup (seg : List (List Char)) (limit : Int) :
    ∀ fuel dict sats, KeysNodup dict →
      ∀ d, gsvLoop seg limit fuel dict sats = some d → KeysNodup d := by
  intro fuel
  induction fuel with
  | zero =>
    intro dict sats hnd d h
    obtain rfl := Option.some.inj h
    exact hnd
  | succ n ih =>
    intro dict sats hnd d h
    rw [gsvLoop] at h
    dsimp only at h
    split at h
    · obtain rfl := Option.some.inj h
      exact hnd
    · split at h
      · exact Option.noConfusion h
      · split at h
        · split at h
          · exact Option.noConfusion h
          · exact ih _ _ (keysNodup_dictInsert _ _ _ hnd) d h
        · obtain rfl := Option.some.inj h
          exact hnd

/-- The satellite dict a GSV sentence would decode, recomputed from the
segment list exactly as `gpgsv` computes it. -/
def gsvDecodedOf (s : GPSState) : Option SatDict :=
  match (s.gps_segments.get? 1).bind pyInt, (s.gps_segments.get? 2).bind pyInt,
        (s.gps_segments.get? 3).bind pyInt with
  | some num_sv, some current_sv, some sats_in_view =>
    gsvLoop s.gps_segments
      (if num_sv = current_sv then (sats_in_view - (num_sv - 1) * 4) * 5 else 20)
      (s.gps_segments.length + 1) [] 4
  | _, _, _ => none

/-- C8: on a successfully decoded GSV sentence, sentence index 1 replaces the
stored satellite map with the satellites decoded from this sentence; an index
greater than 1 merges the decoded satellites into the existing map, where an
entry for an already-present PRN overwrites the old entry and PRNs absent
from this sentence keep their old entries. -/
theorem c8_gsv_replace_or_merge (s s' : GPSState) (d : SatDict) (idx : Int)
    (h : gpgsv s = some (true, s'))
    (hidx : (s.gps_segments.get? 2).bind pyInt = some idx)
    (hd : gsvDecodedOf s = some d) :
    (idx = 1 → s'.satellite_data = d) ∧
    (1 < idx →
      (∀ prn v, dictLookup d prn = some v →
        dictLookup s'.satellite_data prn = some v) ∧
      (∀ prn, dictLookup d prn = none →
        dictLookup s'.satellite_data prn = dictLookup s.satellite_data prn)) := by
  have hnd : KeysNodup d := by
    unfold gsvDecodedOf at hd
    repeat' split at hd
    all_goals (try (exact Option.noConfusion hd))
    all_goals (exact gsvLoop_keysNodup _ _ _ [] 4 (by simp [KeysNodup]) d hd)
  unfold gpgsv at h
  unfold gsvDecodedOf at hd
  dsimp only at h
  repeat' split at h
  all_goals (try (exact Option.noConfusion h))
  all_goals (obtain ⟨hb, hs⟩ := Prod.mk.inj (Option.some.inj h))
  all_goals (try (exact Bool.noConfusion hb))
  all_goals (subst hs)
  all_goals simp_all
  all_goals (intro _hgt)
  all_goals (constructor)
  · intro prn a a1 b hv
    exact dictLookup_dictUpdate_some _ _ prn (a, a1, b) hnd hv
  · intro prn hn
    exact dictLookup_dictUpdate_none _ _ prn hn

/-- A GSV sentence with group size 3, index 2, 11 satellites in view, merged
over a pre-existing satellite map holding PRNs 3 and 7. -/
def c8GsvState : GPSState :=
  { mkSegState [("GPGSV").data, ("3").data, ("2").data, ("11").data,
      ("14").data, ("25").data, ("170").data, ("00").data,
      ("16").data, ("57").data, ("208").data, ("39").data,
      ("18").data, ("67").data, ("296").data, ("40").data,
      ("19").data, ("40").data, ("246").data, ("00").data, ("74").data]
    with satellite_data := [(3, (some 3, some 111, some 0)),
                            (7, (some 9, some 10, some 11))] }

/-- The state after decoding `c8GsvState`. -/
def c8GsvResult : GPSState := ((gpgsv c8GsvState).getD (false, c8GsvState)).2

/-- The satellites decoded from `c8GsvState`'s sentence alone. -/
def c8GsvDecoded : SatDict := (gsvDecodedOf c8GsvState).getD []

/-- C8 witness: the replace-or-merge theorem applied to the concrete index-2
GSV sentence of `c8GsvState`: the freshly decoded PRN 14 is present in the
merged map and the untouched old PRN 7 keeps its entry. -/
theorem c8_gsv_replace_or_merge_witness :
    dictLookup c8GsvResult.satellite_data 14 = some (some 25, some 170, some 0) ∧
    dictLookup c8GsvResult.satellite_data 7 = some (some 9, some 10, some 11) := by
  have H := c8_gsv_replace_or_merge c8GsvState c8GsvResult c8GsvDecoded 2
    (by decide) (by decide) (by decide)
  refine ⟨(H.2 (by decide)).1 14 (some 25, some 170, some 0) (by decide), ?_⟩
  rw [(H.2 (by decide)).2 7 (by decide)]
  decide

/-- The XOR fold of the character codes of a list, as accumulated by the
framer between `$` and `*`. -/
def checksumFold (cs : List Char) : Nat :=
  cs.foldl (fun a c => a ^^^ c.toNat) 0

/-- A character that the framer treats as sentence body: printable and
neither `$` nor `*` (commas are body characters and enter the checksum). -/
def BodyChar (c : Char) : Prop :=
  20 ≤ c.toNat ∧ c.toNat ≤ 126 ∧ c ≠ '$' ∧ c ≠ '*'

instance (c : Char) : Decidable (BodyChar c) := by
  unfold BodyChar
  infer_instance

/-- Uppercase hexadecimal digit for a value below 16. -/
def hexChar (n : Nat) : Char :=
  if n < 10 then Char.ofNat (48 + n) else Char.ofNat (55 + n)

/-- Two-digit uppercase hexadecimal rendering of a byte. -/
def hex2 (n : Nat) : List Char := [hexChar (n / 16), hexChar (n % 16)]

/-- `int(..., 16)` recovers the value from its two-digit rendering. -/
lemma pyHexInt_hex2 : ∀ n : Nat, n < 256 → pyHexInt (hex2 n) = some ((n : Int)) := by
  decide

/-- Both rendered hex digits are body characters and not commas. -/
lemma hex2_bodyChar : ∀ n : Nat, n < 256 → ∀ c ∈ hex2 n, BodyChar c ∧ c ≠ ',' := by
  decide

/-- Shifting the accumulator out of an XOR fold. -/
lemma foldl_xor_shift (l : List Char) :
    ∀ a : Nat, l.foldl (fun x c => x ^^^ c.toNat) a =
      a ^^^ l.foldl (fun x c => x ^^^ c.toNat) 0 := by
  induction l with
  | nil => simp
  | cons c t ih =>
    intro a
    simp only [List.foldl_cons]
    rw [ih (a ^^^ c.toNat), ih (0 ^^^ c.toNat)]
    simp [Nat.zero_xor, Nat.xor_assoc]

/-- Unfolding one character of the checksum fold. -/
lemma checksumFold_cons (c : Char) (t : List Char) :
    checksumFold (c :: t) = c.toNat ^^^ checksumFold t := by
  unfold checksumFold
  simp only [List.foldl_cons]
  rw [foldl_xor_shift]
  simp [Nat.zero_xor]

/-- Cancellation helper: `y ^^^ F = c ^^^ F ^^^ c ^^^ y`. -/
lemma xor_swap_cancel (F c y : Nat) : y ^^^ F = c ^^^ F ^^^ c ^^^ y := by
  rw [Nat.xor_comm c F, Nat.xor_assoc, Nat.xor_assoc, ← Nat.xor_assoc c c y,
    Nat.xor_self, Nat.zero_xor, Nat.xor_comm]

/-- Replacing one character replaces its contribution to the XOR fold. -/
lemma checksumFold_set (cs : List Char) :
    ∀ i c', i < cs.length →
      checksumFold (cs.set i c') =
        checksumFold cs ^^^ (cs.getD i ' ').toNat ^^^ c'.toNat := by
  induction cs with
  | nil =>
    intro i c' hi
    exact absurd hi (by simp)
  | cons c t ih =>
    intro i c' hi
    cases i with
    | zero =>
      simp only [List.set_cons_zero, List.getD_cons_zero]
      rw [checksumFold_cons, checksumFold_cons]
      exact xor_swap_cancel (checksumFold t) c.toNat c'.toNat
    | succ i =>
      simp only [List.set_cons_succ, List.getD_cons_succ]
      rw [checksumFold_cons, checksumFold_cons, ih i c' (by simpa using hi),
        ← Nat.xor_assoc, ← Nat.xor_assoc]

/-- The checksum of printable characters stays below 2^7. -/
lemma checksumFold_lt (cs : List Char) (h : ∀ c ∈ cs, c.toNat ≤ 126) :
    checksumFold cs < 128 := by
  induction cs with
  | nil => simp [checksumFold]
  | cons c t ih =>
    rw [checksumFold_cons]
    have h1 : c.toNat < 2 ^ 7 := by
      have := h c (List.mem_cons_self _ _)
      omega
    have h2 : checksumFold t < 2 ^ 7 :=
      ih (fun x hx => h x (List.mem_cons_of_mem _ hx))
    exact Nat.xor_lt_two_pow h1 h2

/-- Flipping any single bit of any one body character changes the XOR fold. -/
lemma checksumFold_flip_ne (cs : List Char) (i k : Nat) (c' : Char)
    (hi : i < cs.length) (hc : c'.toNat = (cs.getD i ' ').toNat ^^^ 2 ^ k) :
    checksumFold (cs.set i c') ≠ checksumFold cs := by
  rw [checksumFold_set cs i c' hi, hc]
  intro hEq
  have hz : (2 : Nat) ^ k ≠ 0 := (Nat.pos_pow_of_pos k (by decide)).ne'
  apply hz
  have h1 : checksumFold cs ^^^ (cs.getD i ' ').toNat ^^^
      ((cs.getD i ' ').toNat ^^^ 2 ^ k) = checksumFold cs ^^^ 2 ^ k := by
    rw [Nat.xor_assoc (checksumFold cs), ← Nat.xor_assoc ((cs.getD i ' ').toNat),
      Nat.xor_self, Nat.zero_xor]
  rw [h1] at hEq
  have h2 := congrArg (fun z => checksumFold cs ^^^ z) hEq
  simpa [← Nat.xor_assoc, Nat.xor_self, Nat.zero_xor] using h2

lemma checkLimit_eq_self (s : GPSState) (h : s.char_count ≤ SENTENCE_LIMIT) :
    checkLimit s = s := by
  unfold checkLimit
  rw [if_neg (by omega)]

lemma crcAccum_on (c : Char) (s : GPSState) (h : s.process_crc = true) :
    crcAccum c s = { s with crc_xor := s.crc_xor ^^^ c.toNat } := by
  unfold crcAccum
  rw [if_pos h]

lemma crcAccum_off (c : Char) (s : GPSState) (h : s.process_crc = false) :
    crcAccum c s = s := by
  unfold crcAccum
  rw [h]
  simp

lemma update_body_step (s : GPSState) (c : Char)
    (hact : s.sentence_active = true) (hpc : s.process_crc = true)
    (hcnt : s.char_count + 1 ≤ SENTENCE_LIMIT) (hb : BodyChar c) :
    ∃ s', update s c = some (none, s') ∧ s'.sentence_active = true ∧
      s'.process_crc = true ∧ s'.crc_xor = s.crc_xor ^^^ c.toNat ∧
      s'.char_count = s.char_count + 1 ∧ s'.clean_sentences = s.clean_sentences ∧
      s'.crc_fails = s.crc_fails ∧ s'.parsed_sentences = s.parsed_sentences ∧
      (s.active_segment < s.gps_segments.length →
        s'.active_segment < s'.gps_segments.length) := by
  obtain ⟨h20, h126, hdol, hstar⟩ := hb
  by_cases hcm : c = ','
  · subst hcm
    unfold update midStep commaStep update_segment crcAccum checkLimit
    simp only [h20, h126, and_self, if_true, ite_true, hdol, hstar, hact, hpc,
      if_false, ite_false, Nat.not_lt.mpr hcnt]
    refine ⟨_, rfl, rfl, rfl, rfl, rfl, rfl, rfl, rfl, ?_⟩
    intro hlt
    simp only [List.length_append, List.length_set, List.length_singleton]
    omega
  · unfold update midStep bufStep crcAccum checkLimit
    simp only [h20, h126, and_self, if_true, ite_true, hdol, hstar, hact, hpc, hcm,
      if_false, ite_false, Bool.true_eq_false, Nat.not_lt.mpr hcnt]
    refine ⟨_, rfl, rfl, rfl, rfl, rfl, rfl, rfl, rfl, ?_⟩
    intro hlt
    exact hlt

lemma runChars_body (cs : List Char) :
    ∀ s : GPSState, s.sentence_active = true → s.process_crc = true →
      s.char_count + cs.length ≤ SENTENCE_LIMIT → (∀ c ∈ cs, BodyChar c) →
      ∃ s', runChars s cs = some s' ∧ s'.sentence_active = true ∧
        s'.process_crc = true ∧
        s'.crc_xor = cs.foldl (fun a c => a ^^^ c.toNat) s.crc_xor ∧
        s'.char_count = s.char_count + cs.length ∧
        s'.clean_sentences = s.clean_sentences ∧ s'.crc_fails = s.crc_fails ∧
        s'.parsed_sentences = s.parsed_sentences ∧
        (s.active_segment < s.gps_segments.length →
          s'.active_segment < s'.gps_segments.length) := by
  induction cs with
  | nil =>
    intro s hact hpc _ _
    exact ⟨s, rfl, hact, hpc, rfl, rfl, rfl, rfl, rfl, fun h => h⟩
  | cons c t ih =>
    intro s hact hpc hcnt hb
    have hcnt1 : s.char_count + 1 ≤ SENTENCE_LIMIT := by
      simp only [List.length_cons] at hcnt
      omega
    obtain ⟨s1, hu, ha1, hp1, hx1, hc1, hcl1, hf1, hps1, hseg1⟩ :=
      update_body_step s c hact hpc hcnt1 (hb c (List.mem_cons_self _ _))
    obtain ⟨s', hr, ha', hp', hx', hc', hcl', hf', hps', hseg'⟩ :=
      ih s1 ha1 hp1
        (by rw [hc1]; simp only [List.length_cons] at hcnt; omega)
        (fun x hx => hb x (List.mem_cons_of_mem _ hx))
    refine ⟨s', ?_, ha', hp', ?_, ?_, ?_, ?_, ?_, ?_⟩
    · simp only [runChars, hu]
      exact hr
    · rw [hx', hx1, List.foldl_cons]
    · rw [hc', hc1]
      simp only [List.length_cons]
      omega
    · rw [hcl', hcl1]
    · rw [hf', hf1]
    · rw [hps', hps1]
    · exact fun h => hseg' (hseg1 h)

lemma update_star_step (s : GPSState) (hact : s.sentence_active = true) :
    ∃ s', update s '*' = some (none, s') ∧ s'.sentence_active = true ∧
      s'.process_crc = false ∧ s'.buf = [] ∧ s'.crc_xor = s.crc_xor ∧
      s'.char_count = s.char_count + 1 ∧ s'.clean_sentences = s.clean_sentences ∧
      s'.crc_fails = s.crc_fails ∧ s'.parsed_sentences = s.parsed_sentences ∧
      (s.active_segment < s.gps_segments.length →
        s'.active_segment < s'.gps_segments.length) := by
  have hp : 20 ≤ ('*').toNat ∧ ('*').toNat ≤ 126 := by decide
  have hne : ¬(('*') = '$') := by decide
  unfold update starStep update_segment
  simp only [hp, hne, hact, and_self, if_true, ite_true, if_false, ite_false,
    eq_self_iff_true]
  refine ⟨_, rfl, rfl, rfl, ?_, rfl, rfl, rfl, rfl, rfl, ?_⟩
  · rfl
  · intro hlt
    simp only [List.length_append, List.length_set, List.length_singleton]
    omega

lemma update_trailer1_step (s : GPSState) (c : Char)
    (hact : s.sentence_active = true) (hpc : s.process_crc = false)
    (hbuf : s.buf = []) (hb : BodyChar c) (hcm : c ≠ ',')
    (hcnt : s.char_count + 1 ≤ SENTENCE_LIMIT) :
    ∃ s', update s c = some (none, s') ∧ s'.sentence_active = true ∧
      s'.process_crc = false ∧ s'.buf = [c] ∧ s'.crc_xor = s.crc_xor ∧
      s'.gps_segments = s.gps_segments ∧ s'.active_segment = s.active_segment ∧
      s'.char_count = s.char_count + 1 ∧ s'.clean_sentences = s.clean_sentences ∧
      s'.crc_fails = s.crc_fails ∧ s'.parsed_sentences = s.parsed_sentences := by
  obtain ⟨h20, h126, hdol, hstar⟩ := hb
  have h12 : (((1 : Nat) = 2) = False) := by decide
  unfold update midStep bufStep crcAccum checkLimit
  simp only [h20, h126, and_self, if_true, ite_true, hdol, hstar, hcm, hact, hpc,
    hbuf, if_false, ite_false, List.nil_append, List.length_singleton, h12,
    Bool.false_eq_true, eq_self_iff_true, Nat.not_lt.mpr hcnt]
  refine ⟨_, rfl, rfl, rfl, rfl, rfl, rfl, rfl, rfl, rfl, rfl, rfl⟩

lemma update_trailer2_mismatch (s : GPSState) (b c : Char) (v : Int)
    (hact : s.sentence_active = true) (hpc : s.process_crc = false)
    (hbuf : s.buf = [b]) (hb : BodyChar c) (hcm : c ≠ ',')
    (hseg : s.active_segment < s.gps_segments.length)
    (hparse : pyHexInt [b, c] = some v) (hne : ((s.crc_xor : Int)) ≠ v)
    (hcnt : s.char_count + 1 ≤ SENTENCE_LIMIT) :
    ∃ s', update s c = some (none, s') ∧
      s'.crc_fails = s.crc_fails + 1 ∧ s'.clean_sentences = s.clean_sentences ∧
      s'.parsed_sentences = s.parsed_sentences := by
  obtain ⟨h20, h126, hdol, hstar⟩ := hb
  unfold update midStep bufStep crcAccum checkLimit
  simp only [update_segment, h20, h126, and_self, if_true, hdol, hstar, hcm, hact,
    hpc, hbuf, if_false, ite_false, ite_true, List.length_cons, List.length_nil,
    List.singleton_append, getD_set_self _ _ _ _ hseg, hparse, hne,
    Bool.false_eq_true, Nat.not_lt.mpr hcnt, eq_self_iff_true]
  exact ⟨_, rfl, rfl, rfl, rfl⟩

lemma runChars_append (xs ys : List Char) :
    ∀ s : GPSState, runChars s (xs ++ ys) =
      (runChars s xs).bind (fun m => runChars m ys) := by
  induction xs with
  | nil => intro s; simp [runChars]
  | cons c t ih =>
    intro s
    simp only [List.cons_append, runChars]
    cases update s c with
    | none => rfl
    | some p => exact ih p.2

/-- The parser state right after `$` reaches a fresh parser. -/
def afterDollar : GPSState := new_sentence { initState 0 with char_count := 1 }

/-- C9: the framer's running XOR over the characters strictly between `$` and
`*` equals the XOR fold of their codes, and flipping any single bit of any
one body character changes that fold, so feeding the corrupted body with the
original sentence's trailer is rejected: nothing is counted clean, nothing is
parsed, and the checksum-failure counter reads 1. -/
theorem c9_checksum_xor_and_rejection (cs : List Char)
    (hbody : ∀ c ∈ cs, BodyChar c) (hlen : cs.length ≤ 87) :
    ((runChars (initState 0) ('$' :: cs)).map GPSState.crc_xor =
      some (checksumFold cs)) ∧
    (∀ i k c', i < cs.length → k < 8 →
      c'.toNat = (cs.getD i ' ').toNat ^^^ 2 ^ k → BodyChar c' →
      checksumFold (cs.set i c') ≠ checksumFold cs ∧
      (runChars (initState 0)
          ('$' :: (cs.set i c' ++ '*' :: hex2 (checksumFold cs)))).map
        (fun f => (f.clean_sentences, f.parsed_sentences, f.crc_fails)) =
        some (0, 0, 1)) := by
  have hsl : SENTENCE_LIMIT = 90 := rfl
  have h0 : update (initState 0) '$' = some (none, afterDollar) := by decide
  have hrun : ∀ t : List Char,
      runChars (initState 0) ('$' :: t) = runChars afterDollar t := by
    intro t
    simp only [runChars, h0]
  constructor
  · obtain ⟨sB, hB, _, _, hBxor, _, _, _, _, _⟩ :=
      runChars_body cs afterDollar (by decide) (by decide)
        (by have : afterDollar.char_count = 0 := by decide
            omega)
        hbody
    rw [hrun, hB]
    simp only [Option.map_some']
    rw [hBxor]
    have : afterDollar.crc_xor = 0 := by decide
    rw [this]
    rfl
  · intro i k c' hi hk hc hbc'
    have hflip : checksumFold (cs.set i c') ≠ checksumFold cs :=
      checksumFold_flip_ne cs i k c' hi hc
    refine ⟨hflip, ?_⟩
    have hbody' : ∀ x ∈ cs.set i c', BodyChar x := by
      intro x hx
      rcases List.mem_or_eq_of_mem_set hx with h | h
      · exact hbody x h
      · exact h ▸ hbc'
    have hlen' : (cs.set i c').length = cs.length := List.length_set cs i c'
    have hF : checksumFold cs < 128 :=
      checksumFold_lt cs (fun c hcm => (hbody c hcm).2.1)
    have hF256 : checksumFold cs < 256 := by omega
    obtain ⟨h1b, h1c⟩ := hex2_bodyChar (checksumFold cs) hF256
      (hexChar (checksumFold cs / 16)) (by simp [hex2])
    obtain ⟨h2b, h2c⟩ := hex2_bodyChar (checksumFold cs) hF256
      (hexChar (checksumFold cs % 16)) (by simp [hex2])
    obtain ⟨sB, hB, hBact, hBpc, hBxor, hBcnt, hBclean, hBfail, hBparse, hBseg⟩ :=
      runChars_body (cs.set i c') afterDollar (by decide) (by decide)
        (by have : afterDollar.char_count = 0 := by decide
            omega)
        hbody'
    obtain ⟨sC, hCu, hCact, hCpc, hCbuf, hCxor, hCcnt, hCclean, hCfail, hCparse, hCseg⟩ :=
      update_star_step sB hBact
    obtain ⟨sD, hDu, hDact, hDpc, hDbuf, hDxor, hDsegs, hDaseg, hDcnt, hDclean, hDfail, hDparse⟩ :=
      update_trailer1_step sC (hexChar (checksumFold cs / 16)) hCact hCpc hCbuf h1b h1c
        (by rw [hCcnt, hBcnt, hlen']
            have : afterDollar.char_count = 0 := by decide
            omega)
    have hDsegLt : sD.active_segment < sD.gps_segments.length := by
      rw [hDsegs, hDaseg]
      apply hCseg
      apply hBseg
      decide
    have hxorD : sD.crc_xor = checksumFold (cs.set i c') := by
      rw [hDxor, hCxor, hBxor]
      have : afterDollar.crc_xor = 0 := by decide
      rw [this]
      rfl
    have hneD : ((sD.crc_xor : Nat) : Int) ≠ ((checksumFold cs : Nat) : Int) := by
      rw [hxorD]
      exact_mod_cast hflip
    obtain ⟨sE, hEu, hEfail, hEclean, hEparse⟩ :=
      update_trailer2_mismatch sD (hexChar (checksumFold cs / 16))
        (hexChar (checksumFold cs % 16)) ((checksumFold cs : Int))
        hDact hDpc hDbuf h2b h2c hDsegLt
        (pyHexInt_hex2 (checksumFold cs) hF256) hneD
        (by rw [hDcnt, hCcnt, hBcnt, hlen']
            have : afterDollar.char_count = 0 := by decide
            omega)
    rw [hrun, runChars_append, hB]
    simp only [Option.some_bind, hex2, runChars, hCu, hDu, hEu, Option.map_some']
    rw [hEclean, hEparse, hEfail, hDclean, hDparse, hDfail, hCclean, hCparse, hCfail,
      hBclean, hBparse, hBfail]
    have h1 : afterDollar.clean_sentences = 0 := by decide
    have h2 : afterDollar.parsed_sentences = 0 := by decide
    have h3 : afterDollar.crc_fails = 0 := by decide
    rw [h1, h2, h3]

/-- C9 witness: the checksum theorem applied to the concrete body `GPSA`
with bit 0 of its first character flipped (`G` becomes `F`). -/
theorem c9_checksum_xor_and_rejection_witness :
    checksumFold (("GPSA").data.set 0 'F') ≠ checksumFold (("GPSA").data) ∧
    (runChars (initState 0)
        ('$' :: ((("GPSA").data.set 0 'F') ++ '*' :: hex2 (checksumFold (("GPSA").data))))).map
      (fun f => (f.clean_sentences, f.parsed_sentences, f.crc_fails)) =
      some (0, 0, 1) :=
  (c9_checksum_xor_and_rejection (("GPSA").data) (by decide) (by decide)).2
    0 0 'F' (by decide) (by decide) (by decide) (by decide)
